import Mathlib

/-
  Verification development for the Shigure chaincode (Go, Hyperledger Fabric).

  Shallow embedding notes:
  - Go uint32 values are modelled as Nat (the code only uses bitwise AND,
    equality and order on them, so no wrap-around can occur).
  - Go maps are modelled as association lists read through mlookup and mget
    (a read of a missing key yields 0, as in Go).  The code never iterates
    over the permission maps it builds, so list order is irrelevant there;
    object metadata maps are iterated, but all uses are order-insensitive
    (keyed writes at distinct keys).
  - The ledger world state is modelled as typed record lists inside St,
    one list per composite-key record kind, with keyed put and delete
    mirroring PutState and DelState.
  - uuid.NewString is modelled by a deterministic fresh-name counter
    (St.nextId) and time.Now by the St.now field; both stand in for
    external data the code treats as opaque.
  - A Go function call has three outcomes: a normal value, a returned
    error, or a runtime panic (nil-pointer dereference, index out of
    range).  Res captures all three; a returned error aborts the Fabric
    transaction, so state-mutating operations return Res St and an error
    result carries no state.
-/

namespace Shigure

/-- Outcome of a Go call: normal value, returned error value, or runtime panic. -/
inductive Res (α : Type) where
  | ok : α → Res α
  | err : String → Res α
  | panic : String → Res α
deriving DecidableEq, Repr

/-- Message of the Go runtime panic raised by dereferencing a nil pointer. -/
def nilDeref : String := "runtime error: invalid memory address or nil pointer dereference"

/-- Message of the Go runtime panic raised by an out-of-range slice or array index. -/
def oobPanic : String := "runtime error: index out of range"

/-- True exactly on a normal (non-error, non-panic) outcome. -/
def Res.isOk {α : Type} : Res α → Bool
  | .ok _ => true
  | _ => false

/-- Lookup in a Go map modelled as an association list (the ok-flag form, v, ok := m[k]). -/
def mlookup : List (String × Nat) → String → Option Nat
  | [], _ => none
  | (a, b) :: rest, k => if a == k then some b else mlookup rest k

/-- Read of a Go map: a missing key reads as 0. -/
def mget (m : List (String × Nat)) (k : String) : Nat :=
  (mlookup m k).getD 0

/-- Write to a Go map: replace the entry if the key is present, else add it. -/
def mset : List (String × Nat) → String → Nat → List (String × Nat)
  | [], k, v => [(k, v)]
  | (a, b) :: rest, k, v => if a == k then (k, v) :: rest else (a, b) :: mset rest k v

-- System permission bits (common.go).
def User_SysPerms_AddUsers : Nat := 0x01
def User_SysPerms_AddSubUsers : Nat := 0x02
def User_SysPerms_AddGroups : Nat := 0x04
def User_SysPerms_AddBuckets : Nat := 0x08

-- ACL/Bucket permission bits (common.go).
def ACL_Perms_ListObjects : Nat := 0x01
def ACL_Perms_ReadObject : Nat := 0x02
def ACL_Perms_CreateObject : Nat := 0x04
def ACL_Perms_OverwriteObject : Nat := 0x08
def ACL_Perms_DeleteObject : Nat := 0x10

-- ACL entry kinds and access kinds (common.go).
def ACL_EntryType_User : Nat := 0x00
def ACL_EntryType_Group : Nat := 0x01
def ACL_AccessType_Read : Nat := 0x00
def ACL_AccessType_Create : Nat := 0x01
def ACL_AccessType_Overwrite : Nat := 0x02
def ACL_AccessType_Delete : Nat := 0x03
def ACL_AccessType_List : Nat := 0x04

/-- A SubUser link held by a parent User (common.go). -/
structure SubUser where
  ID : String
  UID : String
  Perms : List (String × Nat)
deriving DecidableEq, Repr

/-- A User record (common.go). -/
structure User where
  ID : String
  UID : String
  SysPerms : Nat
  Parent : String
  SubUsers : List SubUser
deriving DecidableEq, Repr

/-- A SubGroup link held by a parent Group (common.go). -/
structure SubGroup where
  ID : String
  Name : String
  Perms : List (String × Nat)
deriving DecidableEq, Repr

/-- A Group record (common.go). -/
structure Group where
  ID : String
  Name : String
  Owner : String
  Parent : String
  Users : List String
  SubGroups : List SubGroup
deriving DecidableEq, Repr

/-- One ACL entry (common.go). -/
structure ACLEntry where
  ID : String
  Entity : String
  EntryType : Nat
  Permissions : Nat
deriving DecidableEq, Repr

/-- An ACL is a list of entries (common.go). -/
abbrev ACL := List ACLEntry

/-- An ACL template record (common.go). -/
structure ACLTemplate where
  ID : String
  Owner : String
  Name : String
  Permissions : ACL
deriving DecidableEq, Repr

/-- A Bucket record (common.go). -/
structure Bucket where
  Name : String
  Owner : String
  Permissions : ACL
  Metadata : List (String × String)
  CTime : Int
deriving DecidableEq, Repr

/-- An Object record (common.go). -/
structure Object where
  ID : String
  Bucket : String
  Key : String
  Owner : String
  Permissions : ACL
  MD5Sum : String
  Size : Nat
  CTime : Int
  Metadata : List (String × String)
  Tags : List String
  Flags : Nat
deriving DecidableEq, Repr

/-- A DeleteRecord kept after RemoveObject (common.go). -/
structure DeleteRecord where
  ID : String
  Bucket : String
  Key : String
  Owner : String
  Deleter : String
  Permissions : ACL
  MD5Sum : String
  Size : Nat
  CTime : Int
  DTime : Int
  Metadata : List (String × String)
  Tags : List String
  Flags : Nat
deriving DecidableEq, Repr

/-- A secondary-index declaration record (common.go, index.go). -/
structure UserIndex where
  ID : String
  Owner : String
  Bucket : String
  Field : String
deriving DecidableEq, Repr

/-- One object of a listing result (common.go). -/
structure ListingObject where
  Key : String
  Owner : String
  Size : Nat
  CTime : Int
  MD5Sum : String
  Metadata : List (String × String)
  Tags : List String
  ID : String
deriving DecidableEq, Repr

/-- A listing result (common.go). -/
structure ObjectListing where
  Bucket : String
  Count : Nat
  Token : String
  Objects : List ListingObject
deriving DecidableEq, Repr

/-- An index entry is the composite key (index id, metadata value, object key);
existence alone encodes membership (index.go). -/
abbrev IEntry := String × String × String

/-- The ledger world state: one list per composite-key record kind, plus the
fresh-name counter standing in for uuid generation and the current time. -/
structure St where
  users : List User
  groups : List Group
  acls : List ACLTemplate
  buckets : List Bucket
  objects : List Object
  delRecords : List DeleteRecord
  indexes : List UserIndex
  ientries : List IEntry
  nextId : Nat
  now : Int
deriving DecidableEq, Repr

/-- Deterministic stand-in for uuid.NewString. -/
def genId (n : Nat) : String := "uuid-" ++ toString n

/-- Extract the state of a successful stateful call, with a default for the
aborted-transaction outcomes. -/
def stOf (r : Res St) (d : St) : St :=
  match r with
  | .ok s => s
  | _ => d

/-- As stOf, for calls returning a flag along with the state. -/
def stOfB (r : Res (Bool × St)) (d : St) : St :=
  match r with
  | .ok (_, s) => s
  | _ => d

/-- As stOf, for calls returning a fresh id along with the state. -/
def stOfP (r : Res (String × St)) (d : St) : St :=
  match r with
  | .ok (_, s) => s
  | _ => d

/-- GetUserByUID: rich query for the first User with the given external UID. -/
def findUserByUID : List User → String → Option User
  | [], _ => none
  | u :: rest, uid => if u.UID == uid then some u else findUserByUID rest uid

/-- GetUserByID: keyed state read of a User record. -/
def findUserByID : List User → String → Option User
  | [], _ => none
  | u :: rest, id => if u.ID == id then some u else findUserByID rest id

/-- GetGroupByID: keyed state read of a Group record. -/
def findGroupByID : List Group → String → Option Group
  | [], _ => none
  | g :: rest, id => if g.ID == id then some g else findGroupByID rest id

/-- GetGroupByName: rich query for the first Group with the given name. -/
def findGroupByName : List Group → String → Option Group
  | [], _ => none
  | g :: rest, name => if g.Name == name then some g else findGroupByName rest name

/-- GetBucket: keyed state read of a Bucket record. -/
def findBucket : List Bucket → String → Option Bucket
  | [], _ => none
  | b :: rest, name => if b.Name == name then some b else findBucket rest name

/-- Keyed object read under the composite key (Object, bucket, key). -/
def findObject : List Object → String → String → Option Object
  | [], _, _ => none
  | o :: rest, b, k => if o.Bucket == b && o.Key == k then some o else findObject rest b k

/-- getuseraclbyname: rich query for the ACL template with the given owner and name. -/
def findACLByOwnerName : List ACLTemplate → String → String → Option ACLTemplate
  | [], _, _ => none
  | a :: rest, owner, name =>
      if a.Name == name && a.Owner == owner then some a else findACLByOwnerName rest owner name

/-- getindex: keyed state read under the composite key (Index, owner, bucket, field). -/
def findIndex : List UserIndex → String → String → String → Option UserIndex
  | [], _, _, _ => none
  | i :: rest, owner, bucket, field =>
      if i.Owner == owner && i.Bucket == bucket && i.Field == field then some i
      else findIndex rest owner bucket field

/-- PutState of a Bucket record (keyed by name). -/
def putBucket : List Bucket → Bucket → List Bucket
  | [], b => [b]
  | x :: rest, b => if x.Name == b.Name then b :: rest else x :: putBucket rest b

/-- PutState of an ACL template record (keyed by id). -/
def putACL : List ACLTemplate → ACLTemplate → List ACLTemplate
  | [], a => [a]
  | x :: rest, a => if x.ID == a.ID then a :: rest else x :: putACL rest a

/-- PutState of a User record (keyed by id). -/
def putUser : List User → User → List User
  | [], u => [u]
  | x :: rest, u => if x.ID == u.ID then u :: rest else x :: putUser rest u

/-- PutState of an Object record (keyed by bucket and key). -/
def putObjectRec : List Object → Object → List Object
  | [], o => [o]
  | x :: rest, o =>
      if x.Bucket == o.Bucket && x.Key == o.Key then o :: rest else x :: putObjectRec rest o

/-- DelState of an Object record (keyed by bucket and key). -/
def delObjectRec : List Object → String → String → List Object
  | [], _, _ => []
  | o :: rest, b, k => if o.Bucket == b && o.Key == k then rest else o :: delObjectRec rest b k

/-- PutState of a DeleteRecord (keyed by bucket and object id). -/
def putDelRec : List DeleteRecord → DeleteRecord → List DeleteRecord
  | [], d => [d]
  | x :: rest, d =>
      if x.Bucket == d.Bucket && x.ID == d.ID then d :: rest else x :: putDelRec rest d

/-- The per-link grant selection of the walks: take the exact-bucket entry
unless it is absent or zero, in which case fall back to the wildcard entry;
none when both are absent or zero (index.go gatheruperms, part_004). -/
def entGrant (perms : List (String × Nat)) (bucket : String) : Option Nat :=
  match mlookup perms bucket with
  | some p =>
      if p == 0 then
        match mlookup perms "*" with
        | some q => if q == 0 then none else some q
        | none => none
      else some p
  | none =>
      match mlookup perms "*" with
      | some q => if q == 0 then none else some q
      | none => none

/-- The inner entry loop of gatheruperms over the parent SubUsers list.
In the source the loop variable of the enclosing for statement is assigned
from a shadowed parent variable, so after this entry loop finishes the
cursor is nil and the next loop-condition evaluation panics; only the
early return on a missing grant exits normally. -/
def uscan (childID parentID bucket : String) :
    List SubUser → List (String × Nat) → Nat → Res (List (String × Nat))
  | [], _, _ => .panic nilDeref
  | ent :: rest, rv, lastperms =>
      if ent.ID == childID then
        match entGrant ent.Perms bucket with
        | none => .ok rv
        | some perms =>
            let lp := lastperms &&& perms
            uscan childID parentID bucket rest
              (if lp == 0 then rv else mset rv parentID lp) lp
      else uscan childID parentID bucket rest rv lastperms

/-- gatheruperms (users file): seed the result with the queried user at 0xff,
then run the parent walk, which the shadowed-cursor defect limits to the
first parent level. -/
def gatheruperms (st : St) (user : User) (bucket : String) : Res (List (String × Nat)) :=
  let rv := mset [] user.ID 0xff
  if user.Parent == "" then .ok rv
  else
    match findUserByID st.users user.Parent with
    | none => .err "unknown user"
    | some parent => uscan user.ID parent.ID bucket parent.SubUsers rv 0xff

/-- The inner entry loop of gathergperms, identical in shape to uscan
(part_004 gathergperms). -/
def gscan (childID parentID bucket : String) :
    List SubGroup → List (String × Nat) → Nat → Res (List (String × Nat))
  | [], _, _ => .panic nilDeref
  | ent :: rest, rv, lastperms =>
      if ent.ID == childID then
        match entGrant ent.Perms bucket with
        | none => .ok rv
        | some perms =>
            let lp := lastperms &&& perms
            gscan childID parentID bucket rest
              (if lp == 0 then rv else mset rv parentID lp) lp
      else gscan childID parentID bucket rest rv lastperms

/-- gathergperms (part_004): the single-group ancestor walk; no entry is
recorded for the group itself. -/
def gathergperms (st : St) (group : Group) (bucket : String) : Res (List (String × Nat)) :=
  if group.Parent == "" then .ok []
  else
    match findGroupByID st.groups group.Parent with
    | none => .err "unknown group"
    | some parent => gscan group.ID parent.ID bucket parent.SubGroups [] 0xff

/-- The inner entry loop of gatherallgperms (part_004).  Unlike gscan, the
missing-grant case breaks out of the entry loop instead of returning, after
which the nil cursor panics, so this loop has no normal exit at all. -/
def agscan (childID parentID bucket : String) :
    List SubGroup → List (String × Nat) → Nat → Res (List (String × Nat))
  | [], _, _ => .panic nilDeref
  | ent :: rest, rv, lastperms =>
      if ent.ID == childID then
        match entGrant ent.Perms bucket with
        | none => .panic nilDeref
        | some perms =>
            let lp := lastperms &&& perms
            agscan childID parentID bucket rest
              (if lp ≠ 0 ∧ mget rv parentID < lp then mset rv parentID lp else rv) lp
      else agscan childID parentID bucket rest rv lastperms

/-- The outer loop of gatherallgperms over the list of member groups: each
group is recorded at 0xff, then its ancestor walk runs (part_004). -/
def allgo (st : St) (bucket : String) : List Group → List (String × Nat) → Res (List (String × Nat))
  | [], rv => .ok rv
  | g :: rest, rv =>
      let rv1 := mset rv g.ID 0xff
      if g.Parent == "" then allgo st bucket rest rv1
      else
        match findGroupByID st.groups g.Parent with
        | none => .err "unknown group"
        | some parent =>
            match agscan g.ID parent.ID bucket parent.SubGroups rv1 0xff with
            | .ok rv2 => allgo st bucket rest rv2
            | .err e => .err e
            | .panic p => .panic p

/-- gatherallgperms (part_004): multi-group aggregation. -/
def gatherallgperms (st : St) (groups : List Group) (bucket : String) : Res (List (String × Nat)) :=
  allgo st bucket groups []

/-- The error returned by the rich-query collaborator for a selector that is
not valid JSON. -/
def badQueryErr : String := "invalid selector"

/-- getusergroups (part_004): the member-group rich query.  The selector
string built at part_004 line 529 has four opening braces but only two
closing ones, so it is not valid JSON and GetQueryResult rejects it for
every principal id: the call always returns an error before any group is
read, and the intended member filter is never evaluated. -/
def getusergroups (_st : St) (_id : String) : Res (List Group) :=
  .err badQueryErr

/-- GatherGroupPermsForUserByID (part_004): fetch the member groups — which
always fails, see getusergroups — and only on success aggregate them. -/
def GatherGroupPermsForUserByID (st : St) (id : String) (bucket : String) :
    Res (List (String × Nat)) :=
  match getusergroups st id with
  | .err e => .err e
  | .panic p => .panic p
  | .ok groups => gatherallgperms st groups bucket

/-- The access_to_bits table (acl.go): four entries, one per non-List access kind. -/
def access_to_bits : List Nat :=
  [ACL_Perms_ReadObject, ACL_Perms_CreateObject, ACL_Perms_OverwriteObject, ACL_Perms_DeleteObject]

/-- The entry loop of testaclaccess (acl.go): skip entries without the bit
for the requested access, then test the aggregated map of the matching
kind; first match returns true.  The table index is bounds-checked the way
the Go runtime does it, so an out-of-range access kind panics here. -/
def aclscan (iuser gmap : List (String × Nat)) (access : Nat) : ACL → Res Bool
  | [] => .ok false
  | ent :: rest =>
      match access_to_bits[access]? with
      | none => .panic oobPanic
      | some bits =>
          if bits &&& ent.Permissions == 0 then aclscan iuser gmap access rest
          else if ent.EntryType == ACL_EntryType_User then
            if mget iuser ent.ID &&& ent.Permissions != 0 then .ok true
            else aclscan iuser gmap access rest
          else if ent.EntryType == ACL_EntryType_Group then
            if mget gmap ent.ID &&& ent.Permissions != 0 then .ok true
            else aclscan iuser gmap access rest
          else aclscan iuser gmap access rest

/-- testaclaccess (acl.go).  Note the guard admits access == 4 since it
compares with strict greater-than against the table length; errors from
the user lookup and the aggregators all yield false, while panics
propagate. -/
def testaclaccess (st : St) (acl : ACL) (uid bucket : String) (access : Nat) : Res Bool :=
  if access > access_to_bits.length then .ok false
  else
    match findUserByUID st.users uid with
    | none => .ok false
    | some user =>
        match gatheruperms st user bucket with
        | .panic p => .panic p
        | .err _ => .ok false
        | .ok iuser =>
            match GatherGroupPermsForUserByID st user.ID bucket with
            | .panic p => .panic p
            | .err _ => .ok false
            | .ok gmap => aclscan iuser gmap access acl

/-- getuseraclbyname (acl.go): resolve an ACL template by owner id and name. -/
def getuseraclbyname (st : St) (id name : String) : Res ACLTemplate :=
  match findACLByOwnerName st.acls id name with
  | some a => .ok a
  | none => .err "failed to look up acl"

/-- templatetoacl (acl.go): copy the (id, kind, bitmask) triples of a template
into a fresh snapshot, dropping the Entity text.  The Go function takes a
pointer and dereferences it unconditionally, so a nil template panics. -/
def templatetoacl (tacl : Option ACLTemplate) : Res ACL :=
  match tacl with
  | none => .panic nilDeref
  | some t =>
      .ok (t.Permissions.map (fun e =>
        { ID := e.ID, Entity := "", EntryType := e.EntryType, Permissions := e.Permissions }))

/-- SetBucketACLFromTemplate (part_003 buckets file): owner-only, stores the
snapshot in the bucket record. -/
def SetBucketACLFromTemplate (st : St) (me bktname aclname : String) : Res St :=
  match findUserByUID st.users me with
  | none => .err "unknown user"
  | some myuser =>
      match findBucket st.buckets bktname with
      | none => .err "unknown bucket"
      | some bkt =>
          if bkt.Owner != myuser.ID then .err "permission denied"
          else
            match getuseraclbyname st myuser.ID aclname with
            | .err e => .err e
            | .panic p => .panic p
            | .ok tacl =>
                match templatetoacl (some tacl) with
                | .err e => .err e
                | .panic p => .panic p
                | .ok snap =>
                    .ok { st with buckets := putBucket st.buckets { bkt with Permissions := snap } }

/-- The entity resolution shared by the ACL entry mutators (acl.go): a User
kind resolves the entity through its UID, anything else as a group name. -/
def resolveEntity (st : St) (entrytype : Nat) (entity : String) : Res String :=
  if entrytype == ACL_EntryType_User then
    match findUserByUID st.users entity with
    | none => .err "unknown user"
    | some usr => .ok usr.ID
  else
    match findGroupByName st.groups entity with
    | none => .err "unknown group"
    | some grp => .ok grp.ID

/-- The find-and-replace loop of EditACLEntry: set the bitmask of the first
entry with matching kind and id; none when no entry matches. -/
def editEntryList : ACL → Nat → String → Nat → Option ACL
  | [], _, _, _ => none
  | v :: rest, entrytype, id, perms =>
      if v.EntryType == entrytype && v.ID == id then
        some ({ v with Permissions := perms } :: rest)
      else
        match editEntryList rest entrytype id perms with
        | some l => some (v :: l)
        | none => none

/-- The removal loop of DeleteACLEntry: drop the first entry with matching
kind and id; none when no entry matches. -/
def deleteEntryList : ACL → Nat → String → Option ACL
  | [], _, _ => none
  | v :: rest, entrytype, id =>
      if v.EntryType == entrytype && v.ID == id then some rest
      else
        match deleteEntryList rest entrytype id with
        | some l => some (v :: l)
        | none => none

/-- GetMyACLByName as used by the entry mutators (acl.go): any failure is
collapsed to the unknown-acl error. -/
def getMyACL (st : St) (me name : String) : Option ACLTemplate :=
  match findUserByUID st.users me with
  | none => none
  | some mu => findACLByOwnerName st.acls mu.ID name

/-- AddACLEntry (acl.go): reject a duplicate entity, else append the entry
and write back the template record. -/
def AddACLEntry (st : St) (me name : String) (entrytype : Nat) (entity : String)
    (perms : Nat) : Res (Bool × St) :=
  match getMyACL st me name with
  | none => .err "unknown acl"
  | some acl =>
      match resolveEntity st entrytype entity with
      | .err e => .err e
      | .panic p => .panic p
      | .ok id =>
          if acl.Permissions.any (fun v => v.EntryType == entrytype && v.ID == id) then
            .err "entity already in acl"
          else
            let ent : ACLEntry :=
              { ID := id, Entity := entity, EntryType := entrytype, Permissions := perms }
            .ok (true,
              { st with acls := putACL st.acls { acl with Permissions := acl.Permissions ++ [ent] } })

/-- EditACLEntry (acl.go): update the bitmask of the matching entry and write
back the template record. -/
def EditACLEntry (st : St) (me name : String) (entrytype : Nat) (entity : String)
    (perms : Nat) : Res (Bool × St) :=
  match getMyACL st me name with
  | none => .err "unknown acl"
  | some acl =>
      match resolveEntity st entrytype entity with
      | .err e => .err e
      | .panic p => .panic p
      | .ok id =>
          match editEntryList acl.Permissions entrytype id perms with
          | none => .err "entity not in ACL"
          | some newperms =>
              .ok (true, { st with acls := putACL st.acls { acl with Permissions := newperms } })

/-- DeleteACLEntry (acl.go): drop the matching entry and write back the
template record; a missing entry returns false without any write. -/
def DeleteACLEntry (st : St) (me name : String) (entrytype : Nat)
    (entity : String) : Res (Bool × St) :=
  match getMyACL st me name with
  | none => .err "unknown acl"
  | some acl =>
      match resolveEntity st entrytype entity with
      | .err e => .err e
      | .panic p => .panic p
      | .ok id =>
          match deleteEntryList acl.Permissions entrytype id with
          | none => .ok (false, st)
          | some newperms =>
              .ok (true, { st with acls := putACL st.acls { acl with Permissions := newperms } })

/-- AddSubUser (users file): reject a mask carrying the AddUsers bit, require
the caller to hold AddSubUsers, create the child with the caller as parent
and record the link in the caller SubUsers list. -/
def AddSubUser (st : St) (me uid : String) (perms : List (String × Nat))
    (sysperms : Nat) : Res (String × St) :=
  if sysperms &&& User_SysPerms_AddUsers != 0 then .err "invalid system permissions"
  else
    match findUserByUID st.users me with
    | none => .err "unknown user"
    | some myuser =>
        if myuser.SysPerms &&& User_SysPerms_AddSubUsers == 0 then .err "permission denied"
        else
          match findUserByUID st.users uid with
          | some _ => .err "user already exists"
          | none =>
              let newid := genId st.nextId
              let newuser : User :=
                { ID := newid, UID := uid, SysPerms := sysperms, Parent := myuser.ID, SubUsers := [] }
              let st1 := { st with users := st.users ++ [newuser], nextId := st.nextId + 1 }
              let su : SubUser := { ID := newid, UID := uid, Perms := perms }
              .ok (newid,
                { st1 with users := putUser st1.users { myuser with SubUsers := myuser.SubUsers ++ [su] } })

/-- getindex (index.go): keyed lookup scoped to one owner; callers treat the
error as absence, so this is the Option form. -/
def getindex (st : St) (owner field bucket : String) : Option UserIndex :=
  findIndex st.indexes owner bucket field

/-- addobjecttoindex (index.go): PutState under the entry composite key; the
stored document is empty, so presence alone matters. -/
def addobjecttoindex (l : List IEntry) (indexid value objectid : String) : List IEntry :=
  if l.contains (indexid, value, objectid) then l else l ++ [(indexid, value, objectid)]

/-- removeobjectfromindex (index.go): DelState under the entry composite key. -/
def removeobjectfromindex (l : List IEntry) (indexid value objectid : String) : List IEntry :=
  l.filter (fun e => e != (indexid, value, objectid))

/-- getindexiterator (index.go): the prefix scan over (index id, value).  The
store returns the hits in key order; here the entry list is the set of
present keys and the claims below never depend on the hit order. -/
def getindexiterator (l : List IEntry) (indexid value : String) : List IEntry :=
  l.filter (fun e => e.1 == indexid && e.2.1 == value)

/-- The metadata removal loop run on overwrite and delete (object.go): for
every metadata pair with an index of the calling owner, remove the entry for
that value and the object key; lookup and delete failures are discarded. -/
def removeIdxEntriesFor (owner bucket objkey : String) : List (String × String) → St → St
  | [], st => st
  | (k, v) :: rest, st =>
      match getindex st owner k bucket with
      | some idx =>
          removeIdxEntriesFor owner bucket objkey rest
            { st with ientries := removeobjectfromindex st.ientries idx.ID v objkey }
      | none => removeIdxEntriesFor owner bucket objkey rest st

/-- The metadata insertion loop run after an object write (object.go). -/
def addIdxEntriesFor (owner bucket objkey : String) : List (String × String) → St → St
  | [], st => st
  | (k, v) :: rest, st =>
      match getindex st owner k bucket with
      | some idx =>
          addIdxEntriesFor owner bucket objkey rest
            { st with ientries := addobjecttoindex st.ientries idx.ID v objkey }
      | none => addIdxEntriesFor owner bucket objkey rest st

/-- GetObjectByPath (object.go): keyed object read followed by the Read
access test with the owner short-circuit; snapshot ACL controls when
present, else the bucket ACL, else deny. -/
def GetObjectByPath (st : St) (me bucket key : String) : Res Object :=
  match findUserByUID st.users me with
  | none => .err "unknown user"
  | some myuser =>
      match findObject st.objects bucket key with
      | none => .err "unknown object"
      | some obj =>
          match findBucket st.buckets bucket with
          | none => .err "unknown bucket"
          | some bkt =>
              if obj.Owner != myuser.ID then
                match
                  ((if obj.Permissions.length != 0 then
                    testaclaccess st obj.Permissions me bucket ACL_AccessType_Read
                  else if bkt.Permissions.length != 0 then
                    testaclaccess st bkt.Permissions me bucket ACL_AccessType_Read
                  else .ok false) : Res Bool) with
                | .panic p => .panic p
                | .err e => .err e
                | .ok ok => if ok then .ok obj else .err "permission denied"
              else .ok obj

/-- The creation tail of createobject (object.go): the fresh-create
permission gate, snapshot construction, object write and index insertion.
The ok flag carries whether the overwrite branch already granted access. -/
def co_create (st : St) (me : String) (myuser : User) (bkt : Bucket)
    (bucket key : String) (size : Nat) (md5 : String)
    (metadata : List (String × String)) (tags : List String)
    (acl : Option ACLTemplate) (flags : Nat) (ok : Bool) : Res St :=
  match
    ((if !ok && bkt.Owner != myuser.ID then
      match
        ((if bkt.Permissions.length != 0 then
          testaclaccess st bkt.Permissions me bucket ACL_AccessType_Create
        else .ok false) : Res Bool) with
      | .ok b => if b then .ok true else .err "permission denied"
      | .err e => .err e
      | .panic p => .panic p
    else .ok ok) : Res Bool) with
  | .err e => .err e
  | .panic p => .panic p
  | .ok _ =>
      match templatetoacl acl with
      | .err e => .err e
      | .panic p => .panic p
      | .ok snap =>
          let obj : Object :=
            { ID := genId st.nextId, Bucket := bucket, Key := key, Owner := myuser.ID,
              Permissions := snap, MD5Sum := md5, Size := size, CTime := st.now,
              Metadata := metadata, Tags := tags, Flags := flags }
          let st1 := { st with objects := putObjectRec st.objects obj, nextId := st.nextId + 1 }
          .ok (addIdxEntriesFor myuser.ID bucket key metadata st1)

/-- The overwrite branch of createobject (object.go): reject when overwrite
is not requested, run the Overwrite access test unless the caller owns the
existing object, then remove the stale index entries for its metadata. -/
def co_afterLookups (st : St) (me : String) (myuser : User) (bkt : Bucket)
    (bucket key : String) (size : Nat) (md5 : String)
    (metadata : List (String × String)) (tags : List String)
    (acl : Option ACLTemplate) (flags : Nat) (overwrite : Bool)
    (tmp : Option Object) : Res St :=
  match tmp with
  | none => co_create st me myuser bkt bucket key size md5 metadata tags acl flags false
  | some t =>
      if !overwrite then .err "object already exists"
      else
        match
          ((if t.Owner != myuser.ID then
            match
              ((if t.Permissions.length != 0 then
                testaclaccess st t.Permissions me bucket ACL_AccessType_Overwrite
              else if bkt.Permissions.length != 0 then
                testaclaccess st bkt.Permissions me bucket ACL_AccessType_Overwrite
              else .ok false) : Res Bool) with
            | .ok b => if b then .ok true else .err "permission denied"
            | .err e => .err e
            | .panic p => .panic p
          else .ok false) : Res Bool) with
        | .err e => .err e
        | .panic p => .panic p
        | .ok ok =>
            let st1 := removeIdxEntriesFor myuser.ID bucket key t.Metadata st
            co_create st1 me myuser bkt bucket key size md5 metadata tags acl flags ok

/-- createobject (object.go): caller and bucket resolution, optional template
resolution, existence probe through GetObjectByPath (whose error is
discarded but whose panic propagates), then the overwrite and create
phases. -/
def createobject (st : St) (me bucket key : String) (size : Nat) (md5 : String)
    (metadata : List (String × String)) (tags : List String)
    (aclTemplate : String) (flags : Nat) (overwrite : Bool) : Res St :=
  match findUserByUID st.users me with
  | none => .err "unknown user"
  | some myuser =>
      match findBucket st.buckets bucket with
      | none => .err "unknown bucket"
      | some bkt =>
          match
            ((if aclTemplate != "" then
              match getuseraclbyname st myuser.ID aclTemplate with
              | .ok a => .ok (some a)
              | .err e => .err e
              | .panic p => .panic p
            else .ok none) : Res (Option ACLTemplate)) with
          | .err e => .err e
          | .panic p => .panic p
          | .ok acl =>
              match
                ((match GetObjectByPath st me bucket key with
                | .ok o => .ok (some o)
                | .err _ => .ok none
                | .panic p => .panic p) : Res (Option Object)) with
              | .err e => .err e
              | .panic p => .panic p
              | .ok tmp =>
                  co_afterLookups st me myuser bkt bucket key size md5 metadata tags acl
                    flags overwrite tmp

/-- RemoveObject (object.go): Delete access test with owner short-circuit,
conversion into a DeleteRecord, removal of the live key and of the index
entries for the last-known metadata. -/
def RemoveObject (st : St) (me bucket key : String) : Res St :=
  match findUserByUID st.users me with
  | none => .err "unknown user"
  | some myuser =>
      match GetObjectByPath st me bucket key with
      | .err e => .err e
      | .panic p => .panic p
      | .ok obj =>
          match findBucket st.buckets bucket with
          | none => .err "unknown bucket"
          | some bkt =>
              match
                ((if obj.Owner != myuser.ID then
                  match
                    ((if obj.Permissions.length != 0 then
                      testaclaccess st obj.Permissions me bucket ACL_AccessType_Delete
                    else if bkt.Permissions.length != 0 then
                      testaclaccess st bkt.Permissions me bucket ACL_AccessType_Delete
                    else .ok false) : Res Bool) with
                  | .ok b => if b then .ok true else .err "permission denied"
                  | .err e => .err e
                  | .panic p => .panic p
                else .ok true) : Res Bool) with
              | .err e => .err e
              | .panic p => .panic p
              | .ok _ =>
                  let dr : DeleteRecord :=
                    { ID := obj.ID, Bucket := obj.Bucket, Key := obj.Key, Owner := obj.Owner,
                      Deleter := myuser.ID, Permissions := obj.Permissions, MD5Sum := obj.MD5Sum,
                      Size := obj.Size, CTime := obj.CTime, DTime := st.now,
                      Metadata := obj.Metadata, Tags := obj.Tags, Flags := obj.Flags }
                  let st1 := { st with delRecords := putDelRec st.delRecords dr }
                  let st2 := { st1 with objects := delObjectRec st1.objects bucket key }
                  .ok (removeIdxEntriesFor myuser.ID bucket key obj.Metadata st2)

/-- The result loop of QueryObjectsByIndex (object.go): each index hit names
an object key whose record is fetched through GetObjectByPath; any failure
there fails the whole query. -/
def qscan (st : St) (me bucket : String) (includeMeta : Bool) :
    List IEntry → List ListingObject → Res (List ListingObject)
  | [], acc => .ok acc
  | e :: rest, acc =>
      match GetObjectByPath st me bucket e.2.2 with
      | .err er => .err er
      | .panic p => .panic p
      | .ok obj =>
          let lo : ListingObject :=
            { Key := obj.Key, Owner := obj.Owner, Size := obj.Size, CTime := obj.CTime,
              MD5Sum := obj.MD5Sum,
              Metadata := if includeMeta then obj.Metadata else [],
              Tags := if includeMeta then obj.Tags else [],
              ID := if includeMeta then obj.ID else "" }
          qscan st me bucket includeMeta rest (acc ++ [lo])

/-- QueryObjectsByIndex (object.go): List access test with bucket-owner
short-circuit, caller-scoped index resolution, prefix scan and object
resolution.  The clamped maxobjs and the token are accepted but unused by
the underlying unpaginated scan, exactly as in the source. -/
def QueryObjectsByIndex (st : St) (me bucket key value : String)
    (includeMeta : Bool) : Res ObjectListing :=
  match findUserByUID st.users me with
  | none => .err "unknown user"
  | some myuser =>
      match findBucket st.buckets bucket with
      | none => .err "unknown bucket"
      | some bkt =>
          match
            ((if bkt.Owner != myuser.ID then
              match
                ((if bkt.Permissions.length != 0 then
                  testaclaccess st bkt.Permissions me bucket ACL_AccessType_List
                else .ok false) : Res Bool) with
              | .ok b => if b then .ok true else .err "permission denied"
              | .err e => .err e
              | .panic p => .panic p
            else .ok true) : Res Bool) with
          | .err e => .err e
          | .panic p => .panic p
          | .ok _ =>
              match getindex st myuser.ID key bucket with
              | none => .err "unknown index key"
              | some idx =>
                  match qscan st me bucket includeMeta (getindexiterator st.ientries idx.ID value) [] with
                  | .err e => .err e
                  | .panic p => .panic p
                  | .ok objs =>
                      .ok { Bucket := bucket, Count := objs.length, Token := "", Objects := objs }

/-- The keys named by a listing result, empty on failure. -/
def keysOf (r : Res ObjectListing) : List String :=
  match r with
  | .ok l => l.Objects.map (fun o => o.Key)
  | _ => []

/-
  Claim scenarios and theorems.
-/

/-- A world state with no records. -/
def emptySt : St :=
  { users := [], groups := [], acls := [], buckets := [], objects := [], delRecords := [],
    indexes := [], ientries := [], nextId := 0, now := 0 }

/-- Scenario for claim C1: the queried user, child of p1. -/
def c1u : User := { ID := "u0", UID := "u", SysPerms := 0, Parent := "p1", SubUsers := [] }

/-- Scenario for claim C1: the root parent holding one SubUser link with the
given per-bucket grant map. -/
def c1parent (perms : List (String × Nat)) : User :=
  { ID := "p1", UID := "p", SysPerms := 0, Parent := "",
    SubUsers := [{ ID := "u0", UID := "u", Perms := perms }] }

/-- Scenario for claim C1: a two-user world parameterised by the link grants. -/
def c1stP (perms : List (String × Nat)) : St :=
  { emptySt with users := [c1u, c1parent perms] }

/-- Claim C1, counterexample: on a link whose map has the explicit exact
entry 0 for the requested bucket and a non-zero wildcard entry, the walk
does not stop and return the accumulated map (the claimed outcome would be
the map recording only the queried user); it takes the wildcard grant and
goes on, after which the nil-cursor defect crashes it. -/
theorem c1_counterexample :
    gatheruperms (c1stP [("b", 0), ("*", 3)]) c1u "b" = .panic nilDeref ∧
    gatheruperms (c1stP [("b", 0), ("*", 3)]) c1u "b" ≠ .ok [("u0", 255)] := by
  exact ⟨rfl, by decide⟩

/-- Claim C1, amended: at a link, an explicit exact grant of 0 for the
requested bucket behaves exactly like an absent exact grant — the walk
result is unchanged by deleting the zero entry — and in both cases the link
falls back to the wildcard entry; the walk stops at the link and returns
the accumulated map (here the queried user alone) exactly when the wildcard
entry is also absent or zero. -/
theorem c1_amended (bucket : String) (rest : List (String × Nat))
    (hb : (bucket == "*") = false) (habs : mlookup rest bucket = none) :
    gatheruperms (c1stP ((bucket, 0) :: rest)) c1u bucket
      = gatheruperms (c1stP rest) c1u bucket ∧
    ((mlookup rest "*" = none ∨ mlookup rest "*" = some 0) →
      gatheruperms (c1stP ((bucket, 0) :: rest)) c1u bucket = .ok [("u0", 255)]) := by
  have hg : entGrant ((bucket, 0) :: rest) bucket = entGrant rest bucket := by
    cases h : mlookup rest "*" with
    | none => simp [entGrant, mlookup, habs, hb, h]
    | some q => simp [entGrant, mlookup, habs, hb, h]
  constructor
  · cases g : entGrant rest bucket with
    | none => simp [gatheruperms, c1stP, c1u, c1parent, findUserByID, uscan, mset, hg, g]
    | some p => simp [gatheruperms, c1stP, c1u, c1parent, findUserByID, uscan, mset, hg, g]
  · intro hwc
    have g : entGrant rest bucket = none := by
      cases hwc with
      | inl h => simp [entGrant, habs, h]
      | inr h => simp [entGrant, habs, h]
    simp [gatheruperms, c1stP, c1u, c1parent, findUserByID, uscan, mset, hg, g]

/-- Claim C1, witness for the amended theorem at the bucket b with the
explicit-zero-only link. -/
theorem c1_amended_witness :
    gatheruperms (c1stP [("b", 0)]) c1u "b" = .ok [("u0", 255)] :=
  (c1_amended "b" [] (by decide) rfl).2 (Or.inl rfl)

/-- Scenario for claims C2: a one-link chain, the child of a root parent
whose link grants 0x02 on bucket b. -/
def c2u : User := { ID := "u0", UID := "u", SysPerms := 0, Parent := "p1", SubUsers := [] }

/-- Scenario for claim C2: the root parent of the chain. -/
def c2p : User :=
  { ID := "p1", UID := "p", SysPerms := 0, Parent := "",
    SubUsers := [{ ID := "u0", UID := "u", Perms := [("b", 2)] }] }

/-- Scenario for claim C2: the two-user world. -/
def c2st : St := { emptySt with users := [c2u, c2p] }

/-- Claim C2: on the acyclic chain u0 to p1 whose single link carries the
non-zero applicable grant 0x02 for bucket b, the claim predicts the result
map u0 to 0xff and p1 to 0xff AND 0x02 = 0x02; instead the walk crashes
with a nil-pointer dereference, because the loop cursor is assigned from a
parent variable shadowed inside the loop body and is nil when the loop
condition is re-evaluated. -/
theorem c2_chain_and_crashes :
    gatheruperms c2st c2u "b" = .panic nilDeref ∧
    gatheruperms c2st c2u "b" ≠ .ok [("u0", 255), ("p1", 2)] :=
  ⟨rfl, by decide⟩

/-- Scenario for claim C3: two groups g1 and g2 under the common parent gA,
with member u0 in both, and link grants 0x02 and 0x06 on bucket b. -/
def c3g1 : Group :=
  { ID := "g1", Name := "G1", Owner := "", Parent := "gA", Users := ["u0"], SubGroups := [] }

/-- Scenario for claim C3: the second member group. -/
def c3g2 : Group :=
  { ID := "g2", Name := "G2", Owner := "", Parent := "gA", Users := ["u0"], SubGroups := [] }

/-- Scenario for claim C3: the common ancestor group. -/
def c3gA : Group :=
  { ID := "gA", Name := "A", Owner := "", Parent := "", Users := [],
    SubGroups := [{ ID := "g1", Name := "G1", Perms := [("b", 2)] },
                  { ID := "g2", Name := "G2", Perms := [("b", 6)] }] }

/-- Scenario for claim C3: the three-group world. -/
def c3st : St := { emptySt with groups := [c3g1, c3g2, c3gA] }

/-- Claim C3: for the member list g1, g2 — both children of gA with grants
0x02 and 0x06 on bucket b — the claim predicts the multi-path aggregation
map with gA at the maximum 0x06 and both direct groups at 0xff.  Two
defects make that unreachable: handed the member list directly,
gatherallgperms crashes with a nil-pointer dereference during the very
first walk (the shadowed-cursor defect), before any second path could be
combined; and through the exported path the member-group query itself
always errors on its malformed selector, so gatherallgperms is never even
called for a user. -/
theorem c3_gatherallgperms_crashes :
    gatherallgperms c3st [c3g1, c3g2] "b" = .panic nilDeref ∧
    gatherallgperms c3st [c3g1, c3g2] "b" ≠ .ok [("g1", 255), ("g2", 255), ("gA", 6)] ∧
    GatherGroupPermsForUserByID c3st "u0" "b" = .err badQueryErr :=
  ⟨rfl, by decide, rfl⟩

/-- Scenario for claim C10: a child group of a root parent whose link grants
0x03 on bucket b. -/
def c10g : Group :=
  { ID := "h1", Name := "H1", Owner := "", Parent := "hA", Users := [], SubGroups := [] }

/-- Scenario for claim C10: the root parent group. -/
def c10gA : Group :=
  { ID := "hA", Name := "HA", Owner := "", Parent := "", Users := [],
    SubGroups := [{ ID := "h1", Name := "H1", Perms := [("b", 3)] }] }

/-- Scenario for claim C10: a cyclic group that is its own parent, with a
link carrying no applicable grant. -/
def c10cyc : Group :=
  { ID := "hc", Name := "HC", Owner := "", Parent := "hc", Users := [],
    SubGroups := [{ ID := "hc", Name := "HC", Perms := [] }] }

/-- Scenario for claim C10: the world holding both chains. -/
def c10st : St := { emptySt with groups := [c10g, c10gA, c10cyc] }

/-- Claim C10: the claim describes the intended ascending walk, which would
need acyclicity to terminate; in the code as written the walk never
ascends: on the finite acyclic chain h1 to hA with an applicable grant it
crashes with a nil-pointer dereference at the second loop-condition
evaluation instead of terminating normally at the root, while on a cyclic
chain whose link has no applicable grant it returns normally — so no
acyclicity hypothesis is involved in the termination behaviour of the
compiled loop at all. -/
theorem c10_walk_never_ascends :
    gathergperms c10st c10g "b" = .panic nilDeref ∧
    gathergperms c10st c10g "b" ≠ .ok [("hA", 3)] ∧
    gathergperms c10st c10cyc "b" = .ok [] :=
  ⟨rfl, by decide, rfl⟩

/-- Scenario for claim C5: a root caller and a one-entry ACL naming it. -/
def c5root : User := { ID := "r0", UID := "r", SysPerms := 0, Parent := "", SubUsers := [] }

/-- Scenario for claim C5: the world with the root caller. -/
def c5st : St := { emptySt with users := [c5root] }

/-- Scenario for claim C5: a non-empty ACL, so the entry loop runs. -/
def c5acl : ACL := [{ ID := "r0", Entity := "", EntryType := 0, Permissions := 0xff }]

/-- Claim C5: for every access-kind value — List (4), out-of-range values
and the in-range kinds alike — and for every state, ACL, caller and bucket
whose user-permission walk does not hit the nil-cursor crash (a defect
independent of the access kind, settled with C2), testaclaccess evaluates
totally and returns false: values above 4 are cut off by the guard, and
every other value is denied when the member-group aggregation fails on its
malformed selector, before the entry loop — so the access_to_bits table
read is never reached and never faults, and the List-access tests issued
by the listing operations evaluate without error. -/
theorem c5_access_kinds_total (st : St) (acl : ACL) (uid bucket : String) (access : Nat)
    (h : ∀ (user : User) (p : String),
      findUserByUID st.users uid = some user → gatheruperms st user bucket ≠ .panic p) :
    testaclaccess st acl uid bucket access = .ok false := by
  unfold testaclaccess
  by_cases h4 : access > access_to_bits.length
  · simp [h4]
  · rw [if_neg h4]
    cases hu : findUserByUID st.users uid with
    | none => rfl
    | some user =>
      cases hg : gatheruperms st user bucket with
      | panic p => exact absurd hg (h user p hu)
      | err e => simp [hg]
      | ok iuser => simp [hg, GatherGroupPermsForUserByID, getusergroups]

/-- Claim C5, witness: at a concrete world with a root caller and a
non-empty ACL, the List kind, an out-of-range kind and the Read kind all
evaluate to a plain denial. -/
theorem c5_access_kinds_witness :
    testaclaccess c5st c5acl "r" "b" ACL_AccessType_List = .ok false ∧
    testaclaccess c5st c5acl "r" "b" 7 = .ok false ∧
    testaclaccess c5st c5acl "r" "b" ACL_AccessType_Read = .ok false := by
  have h : ∀ (user : User) (p : String),
      findUserByUID c5st.users "r" = some user → gatheruperms c5st user "b" ≠ .panic p := by
    intro user p hu
    simp [c5st, c5root, emptySt, findUserByUID] at hu
    subst hu
    simp [gatheruperms, c5root, mset]
  exact ⟨c5_access_kinds_total c5st c5acl "r" "b" ACL_AccessType_List h,
         c5_access_kinds_total c5st c5acl "r" "b" 7 h,
         c5_access_kinds_total c5st c5acl "r" "b" ACL_AccessType_Read h⟩

/-- The entry loop of testaclaccess, characterised on its own: given the
table bit for the access kind, the scan yields true exactly when some entry
both carries that bit and hits a non-zero intersection with the aggregated
map of its kind.  This documents that the loop implements exactly the
existential OR the spec describes — but in the program the loop is dead
code, because the member-group aggregation that precedes it fails on its
malformed selector for every input (see claim C4). -/
theorem aclscan_ok_true_iff (iuser gmap : List (String × Nat)) (access bits : Nat)
    (hbits : access_to_bits[access]? = some bits) (acl : ACL) :
    (aclscan iuser gmap access acl = .ok true ↔
      ∃ ent ∈ acl, bits &&& ent.Permissions ≠ 0 ∧
        ((ent.EntryType = ACL_EntryType_User ∧ mget iuser ent.ID &&& ent.Permissions ≠ 0) ∨
         (ent.EntryType = ACL_EntryType_Group ∧ mget gmap ent.ID &&& ent.Permissions ≠ 0))) := by
  induction acl with
  | nil => simp [aclscan]
  | cons ent rest ih =>
    unfold aclscan
    rw [hbits]
    by_cases h1 : bits &&& ent.Permissions = 0
    · simp [h1, ih]
    · by_cases h2 : ent.EntryType = 0
      · by_cases h3 : mget iuser ent.ID &&& ent.Permissions = 0
        · simp [h1, h2, h3, ih, ACL_EntryType_User, ACL_EntryType_Group]
        · simp [h1, h2, h3, ih, ACL_EntryType_User, ACL_EntryType_Group]
      · by_cases h4 : ent.EntryType = 1
        · by_cases h5 : mget gmap ent.ID &&& ent.Permissions = 0
          · simp [h1, h2, h4, h5, ih, ACL_EntryType_User, ACL_EntryType_Group]
          · simp [h1, h2, h4, h5, ih, ACL_EntryType_User, ACL_EntryType_Group]
        · simp [h1, h2, h4, ih, ACL_EntryType_User, ACL_EntryType_Group]

/-- Scenario for claim C4: a root caller. -/
def c4root : User := { ID := "r1", UID := "q", SysPerms := 0, Parent := "", SubUsers := [] }

/-- Scenario for claim C4: the world with the root caller. -/
def c4st : St := { emptySt with users := [c4root] }

/-- Scenario for claim C4: a one-entry ACL naming the caller with the Read
bit, so the claimed matching condition plainly holds. -/
def c4acl : ACL := [{ ID := "r1", Entity := "", EntryType := 0, Permissions := 2 }]

/-- Claim C4: the claim (and the spec) say the access test returns true
exactly when some entry carries the access bit and the aggregated map of
its kind ANDs non-zero with the entry bitmask.  At this input the caller's
user map is gathered normally and the single User entry satisfies both
conditions, so the claimed result is true — yet testaclaccess returns
false, because the member-group aggregation it performs first always
errors on its malformed selector and the error is mapped to a blanket
denial before any entry is scanned.  The access test can never return
true for any input. -/
theorem c4_matching_entry_denied :
    gatheruperms c4st c4root "b" = .ok [("r1", 255)] ∧
    (∃ ent ∈ c4acl, ACL_Perms_ReadObject &&& ent.Permissions ≠ 0 ∧
      ent.EntryType = ACL_EntryType_User ∧ mget [("r1", 255)] ent.ID &&& ent.Permissions ≠ 0) ∧
    GatherGroupPermsForUserByID c4st "r1" "b" = .err badQueryErr ∧
    testaclaccess c4st c4acl "q" "b" ACL_AccessType_Read = .ok false :=
  ⟨rfl, by decide, rfl, rfl⟩

/-- Claim C7: the three ACL template mutators write only the template
record, so for every state the bucket and object records — where applied
snapshots live — are unchanged byte for byte, whatever the mutation does;
and applying a template stores a by-value copy of its (id, kind, bitmask)
triples with the Entity text dropped. -/
theorem c7_snapshot_frame (st : St) (me name entity : String) (entrytype perms : Nat) :
    (stOfB (AddACLEntry st me name entrytype entity perms) st).buckets = st.buckets ∧
    (stOfB (AddACLEntry st me name entrytype entity perms) st).objects = st.objects ∧
    (stOfB (EditACLEntry st me name entrytype entity perms) st).buckets = st.buckets ∧
    (stOfB (EditACLEntry st me name entrytype entity perms) st).objects = st.objects ∧
    (stOfB (DeleteACLEntry st me name entrytype entity) st).buckets = st.buckets ∧
    (stOfB (DeleteACLEntry st me name entrytype entity) st).objects = st.objects ∧
    (∀ tacl : ACLTemplate, templatetoacl (some tacl) =
      .ok (tacl.Permissions.map (fun e =>
        { ID := e.ID, Entity := "", EntryType := e.EntryType, Permissions := e.Permissions }))) := by
  refine ⟨?_, ?_, ?_, ?_, ?_, ?_, fun tacl => rfl⟩ <;>
    simp only [AddACLEntry, EditACLEntry, DeleteACLEntry] <;>
    (repeat' split) <;> simp [stOfB]

/-- Scenario for claim C6: the calling user. -/
def c6me : User := { ID := "m0", UID := "m", SysPerms := 0, Parent := "", SubUsers := [] }

/-- Scenario for claim C6: another root user owning the bucket of the
counterexample. -/
def c6other : User := { ID := "o0", UID := "o", SysPerms := 0, Parent := "", SubUsers := [] }

/-- Scenario for claim C6: a template owned by the caller, with the given
entries. -/
def c6tpl (tperm : ACL) : ACLTemplate :=
  { ID := "a0", Owner := "m0", Name := "t", Permissions := tperm }

/-- Scenario for claim C6: the existing object at b and k, owned by the
caller, carrying the given snapshot ACL. -/
def c6obj (aclO : ACL) : Object :=
  { ID := "x0", Bucket := "b", Key := "k", Owner := "m0", Permissions := aclO,
    MD5Sum := "", Size := 0, CTime := 0, Metadata := [], Tags := [], Flags := 0 }

/-- Scenario for the claim C6 counterexample: the bucket owned by the other
user, with an empty ACL. -/
def c6bktOther : Bucket :=
  { Name := "b", Owner := "o0", Permissions := [], Metadata := [], CTime := 0 }

/-- Scenario for the claim C6 counterexample world: caller owns the object
but not the bucket, and the bucket has no ACL. -/
def c6stX : St :=
  { emptySt with users := [c6me, c6other], buckets := [c6bktOther],
                 objects := [c6obj []], acls := [c6tpl []] }

/-- Claim C6, counterexample: the caller owns the existing object, yet the
overwrite is denied — after the owner short-circuit skips the Overwrite
tests, the flag that records an already-granted access is still false, so
the fresh-create gate runs, consults bucket ownership, finds the bucket
owned by someone else with an empty ACL, and denies. -/
theorem c6_counterexample :
    createobject c6stX "m" "b" "k" 0 "m5" [] [] "t" 0 true = .err "permission denied" := rfl

/-- Scenario for the claim C6 amended theorem: the bucket owned by the
caller, carrying an arbitrary ACL. -/
def c6bktMine (aclB : ACL) : Bucket :=
  { Name := "b", Owner := "m0", Permissions := aclB, Metadata := [], CTime := 0 }

/-- Scenario for the claim C6 amended theorem: the world parameterised by
the object snapshot ACL, the bucket ACL and the template entries. -/
def c6stA (aclO aclB tperm : ACL) : St :=
  { emptySt with users := [c6me], buckets := [c6bktMine aclB], objects := [c6obj aclO],
                 acls := [c6tpl tperm] }

/-- Claim C6, amended: an overwrite by the owner of the existing object
skips the Overwrite ACL tests entirely — but bucket ownership is still
consulted, and only when the caller also owns the bucket does the
overwrite succeed with no ACL test at all: here it succeeds for every
content of the object snapshot ACL, of the bucket ACL and of the applied
template alike.  (When the caller does not own the bucket, Create access
on the bucket ACL is additionally required, as the counterexample shows.) -/
theorem c6_amended (aclO aclB tperm : ACL) :
    (createobject (c6stA aclO aclB tperm) "m" "b" "k" 0 "m5" [] [] "t" 0 true).isOk = true := rfl

/-- Scenario for claim C9: a root caller holding exactly the AddSubUsers
system bit. -/
def c9root : User := { ID := "r2", UID := "w", SysPerms := 2, Parent := "", SubUsers := [] }

/-- Scenario for claim C9: the world with the AddSubUsers-holding caller. -/
def c9st : St := { emptySt with users := [c9root] }

/-- Claim C9, counterexample: a sub-user mask carrying the AddGroups bit is
accepted — AddSubUser succeeds and stores the new user with that bit —
although the claim says any mask containing AddGroups must be rejected;
only the AddUsers bit is screened. -/
theorem c9_counterexample :
    (AddSubUser c9st "w" "s" [] User_SysPerms_AddGroups).isOk = true ∧
    findUserByUID (stOfP (AddSubUser c9st "w" "s" [] User_SysPerms_AddGroups) c9st).users "s"
      = some { ID := "uuid-0", UID := "s", SysPerms := 4, Parent := "r2", SubUsers := [] } :=
  ⟨rfl, rfl⟩

/-- Claim C9, amended: AddSubUser rejects a requested mask containing the
AddUsers bit (the AddGroups bit is not screened), rejects a caller without
the AddSubUsers bit, and on success the new user record carries the caller
as parent while the caller record gains a SubUser link for the new user. -/
theorem c9_amended (st : St) (me uid : String) (perms : List (String × Nat)) (sysperms : Nat) :
    (sysperms &&& User_SysPerms_AddUsers ≠ 0 →
      AddSubUser st me uid perms sysperms = .err "invalid system permissions") ∧
    (∀ mu : User, findUserByUID st.users me = some mu →
      mu.SysPerms &&& User_SysPerms_AddSubUsers = 0 →
      sysperms &&& User_SysPerms_AddUsers = 0 →
      AddSubUser st me uid perms sysperms = .err "permission denied") ∧
    (∀ nid st1, AddSubUser st me uid perms sysperms = .ok (nid, st1) →
      ∃ mu : User, findUserByUID st.users me = some mu ∧
        st1.users = putUser
          (st.users ++
            [{ ID := nid, UID := uid, SysPerms := sysperms, Parent := mu.ID, SubUsers := [] }])
          { mu with SubUsers := mu.SubUsers ++ [{ ID := nid, UID := uid, Perms := perms }] }) := by
  refine ⟨?_, ?_, ?_⟩
  · intro h
    simp [AddSubUser, h]
  · intro mu hmu hbit hns
    simp [AddSubUser, hns, hmu, hbit]
  · intro nid st1 h
    unfold AddSubUser at h
    split at h
    · exact absurd h (by simp)
    · split at h
      · exact absurd h (by simp)
      · rename_i mu hmu
        split at h
        · exact absurd h (by simp)
        · split at h
          · exact absurd h (by simp)
          · rw [Res.ok.injEq, Prod.mk.injEq] at h
            obtain ⟨h1, h2⟩ := h
            refine ⟨mu, hmu, ?_⟩
            rw [← h1, ← h2]

/-- Scenario for the claim C9 witness: a root caller without the
AddSubUsers bit. -/
def c9weak : User := { ID := "r3", UID := "y", SysPerms := 0, Parent := "", SubUsers := [] }

/-- Scenario for the claim C9 witness: the world with the weak caller. -/
def c9wst : St := { emptySt with users := [c9weak] }

/-- Claim C9, witness: the amended theorem applied at concrete inputs for
each of its three parts. -/
theorem c9_amended_witness :
    AddSubUser c9st "w" "s2" [] 1 = .err "invalid system permissions" ∧
    AddSubUser c9wst "y" "s" [] 0 = .err "permission denied" ∧
    (∃ mu : User, findUserByUID c9st.users "w" = some mu ∧
      (stOfP (AddSubUser c9st "w" "s" [] 4) c9st).users = putUser
        (c9st.users ++
          [{ ID := "uuid-0", UID := "s", SysPerms := 4, Parent := mu.ID, SubUsers := [] }])
        { mu with SubUsers := mu.SubUsers ++ [{ ID := "uuid-0", UID := "s", Perms := [] }] }) :=
  ⟨(c9_amended c9st "w" "s2" [] 1).1 (by decide),
   (c9_amended c9wst "y" "s" [] 0).2.1 c9weak rfl (by decide) (by decide),
   (c9_amended c9st "w" "s" [] 4).2.2 "uuid-0" (stOfP (AddSubUser c9st "w" "s" [] 4) c9st) rfl⟩

/-- Scenario for claim C8: the caller, who owns the bucket and the index. -/
def c8me : User := { ID := "n0", UID := "n", SysPerms := 0, Parent := "", SubUsers := [] }

/-- Scenario for claim C8: the bucket d owned by the caller. -/
def c8bkt : Bucket := { Name := "d", Owner := "n0", Permissions := [], Metadata := [], CTime := 0 }

/-- Scenario for claim C8: an empty ACL template owned by the caller. -/
def c8tpl : ACLTemplate := { ID := "a8", Owner := "n0", Name := "t", Permissions := [] }

/-- Scenario for claim C8: the active index on metadata field f in bucket d. -/
def c8idx (f : String) : UserIndex := { ID := "i8", Owner := "n0", Bucket := "d", Field := f }

/-- Scenario for claim C8: the initial world, no objects and no entries. -/
def c8st0 (f : String) : St :=
  { emptySt with users := [c8me], buckets := [c8bkt], acls := [c8tpl], indexes := [c8idx f] }

/-- Scenario for claim C8: the object as first created, metadata f to v. -/
def c8obj1 (f v k : String) : Object :=
  { ID := "uuid-0", Bucket := "d", Key := k, Owner := "n0", Permissions := [],
    MD5Sum := "m5", Size := 0, CTime := 0, Metadata := [(f, v)], Tags := [], Flags := 0 }

/-- Scenario for claim C8: the world after the create, holding the entry
for (f, v). -/
def c8stOne (f v k : String) : St :=
  { emptySt with users := [c8me], buckets := [c8bkt], acls := [c8tpl], indexes := [c8idx f],
                 objects := [c8obj1 f v k], ientries := [("i8", v, k)], nextId := 1 }

/-- Claim C8, create step: creating the object with metadata f to v installs
the object record and exactly the index entry for (f, v). -/
theorem c8_step1 (f v k : String) :
    createobject (c8st0 f) "n" "d" k 0 "m5" [(f, v)] [] "t" 0 false = .ok (c8stOne f v k) := by
  simp [c8st0, c8stOne, c8me, c8bkt, c8tpl, c8idx, c8obj1, emptySt,
        createobject, co_afterLookups, co_create, GetObjectByPath,
        findUserByUID, findBucket, findObject, findACLByOwnerName, getuseraclbyname,
        templatetoacl, getindex, findIndex, addIdxEntriesFor, addobjecttoindex,
        putObjectRec, genId]
  rfl

/-- Claim C8, first lookup: after the create, the (f, v) index lookup
returns the object key. -/
theorem c8_lookup1 (f v k : String) :
    keysOf (QueryObjectsByIndex (c8stOne f v k) "n" "d" f v true) = [k] := by
  simp [c8stOne, c8me, c8bkt, c8tpl, c8idx, c8obj1, emptySt,
        QueryObjectsByIndex, GetObjectByPath, findUserByUID, findBucket, findObject,
        getindex, findIndex, getindexiterator, qscan, keysOf]

/-- Scenario for claim C8: the object as overwritten, metadata f to w. -/
def c8obj2 (f w k : String) : Object :=
  { ID := "uuid-1", Bucket := "d", Key := k, Owner := "n0", Permissions := [],
    MD5Sum := "m5", Size := 0, CTime := 0, Metadata := [(f, w)], Tags := [], Flags := 0 }

/-- Scenario for claim C8: the world after the overwrite, where the (f, v)
entry has been removed and the (f, w) entry added. -/
def c8stTwo (f w k : String) : St :=
  { emptySt with users := [c8me], buckets := [c8bkt], acls := [c8tpl], indexes := [c8idx f],
                 objects := [c8obj2 f w k], ientries := [("i8", w, k)], nextId := 2 }

/-- Claim C8, overwrite step: overwriting the object so its metadata maps f
to w removes the stale (f, v) entry and installs the (f, w) entry. -/
theorem c8_step2 (f v w k : String) :
    createobject (c8stOne f v k) "n" "d" k 0 "m5" [(f, w)] [] "t" 0 true = .ok (c8stTwo f w k) := by
  simp [c8stOne, c8stTwo, c8me, c8bkt, c8tpl, c8idx, c8obj1, c8obj2, emptySt,
        createobject, co_afterLookups, co_create, GetObjectByPath,
        findUserByUID, findBucket, findObject, findACLByOwnerName, getuseraclbyname,
        templatetoacl, getindex, findIndex, addIdxEntriesFor, addobjecttoindex,
        removeIdxEntriesFor, removeobjectfromindex, putObjectRec, genId]
  rfl

/-- Claim C8, stale lookup: after the overwrite the (f, v) lookup no longer
returns the object. -/
theorem c8_lookup2v (f v w k : String) (hvw : (w == v) = false) :
    keysOf (QueryObjectsByIndex (c8stTwo f w k) "n" "d" f v true) = [] := by
  simp [c8stTwo, c8me, c8bkt, c8tpl, c8idx, c8obj2, emptySt,
        QueryObjectsByIndex, GetObjectByPath, findUserByUID, findBucket, findObject,
        getindex, findIndex, getindexiterator, qscan, keysOf, hvw]

/-- Claim C8, fresh lookup: after the overwrite the (f, w) lookup returns
the object key. -/
theorem c8_lookup2w (f w k : String) :
    keysOf (QueryObjectsByIndex (c8stTwo f w k) "n" "d" f w true) = [k] := by
  simp [c8stTwo, c8me, c8bkt, c8tpl, c8idx, c8obj2, emptySt,
        QueryObjectsByIndex, GetObjectByPath, findUserByUID, findBucket, findObject,
        getindex, findIndex, getindexiterator, qscan, keysOf]

/-- Scenario for claim C8: the delete record left by removing the object. -/
def c8dr (f w k : String) : DeleteRecord :=
  { ID := "uuid-1", Bucket := "d", Key := k, Owner := "n0", Deleter := "n0", Permissions := [],
    MD5Sum := "m5", Size := 0, CTime := 0, DTime := 0, Metadata := [(f, w)], Tags := [], Flags := 0 }

/-- Scenario for claim C8: the world after the delete, with no object and no
index entries left. -/
def c8stThree (f w k : String) : St :=
  { emptySt with users := [c8me], buckets := [c8bkt], acls := [c8tpl], indexes := [c8idx f],
                 objects := [], delRecords := [c8dr f w k], ientries := [], nextId := 2 }

/-- Claim C8, delete step: removing the object deletes its record, leaves a
delete record, and removes its index entries. -/
theorem c8_step3 (f w k : String) :
    RemoveObject (c8stTwo f w k) "n" "d" k = .ok (c8stThree f w k) := by
  simp [c8stTwo, c8stThree, c8me, c8bkt, c8tpl, c8idx, c8obj2, c8dr, emptySt,
        RemoveObject, GetObjectByPath, findUserByUID, findBucket, findObject,
        getindex, findIndex, removeIdxEntriesFor, removeobjectfromindex,
        delObjectRec, putDelRec]

/-- Claim C8, post-delete lookup: any value lookup on the index is empty. -/
theorem c8_lookup3 (f u w k : String) :
    keysOf (QueryObjectsByIndex (c8stThree f w k) "n" "d" f u true) = [] := by
  simp [c8stThree, c8me, c8bkt, c8tpl, c8idx, c8dr, emptySt,
        QueryObjectsByIndex, GetObjectByPath, findUserByUID, findBucket, findObject,
        getindex, findIndex, getindexiterator, qscan, keysOf]

/-- Claim C8: the full index round-trip for the owner of an active index on
field f in bucket d — the create makes the (f, v) lookup return the object
key; the overwrite to value w removes it from the (f, v) lookup and adds it
to the (f, w) one; the delete removes it from every lookup. -/
theorem c8_index_roundtrip (f v w k : String) (hvw : (w == v) = false) :
    createobject (c8st0 f) "n" "d" k 0 "m5" [(f, v)] [] "t" 0 false = .ok (c8stOne f v k) ∧
    keysOf (QueryObjectsByIndex (c8stOne f v k) "n" "d" f v true) = [k] ∧
    createobject (c8stOne f v k) "n" "d" k 0 "m5" [(f, w)] [] "t" 0 true = .ok (c8stTwo f w k) ∧
    keysOf (QueryObjectsByIndex (c8stTwo f w k) "n" "d" f v true) = [] ∧
    keysOf (QueryObjectsByIndex (c8stTwo f w k) "n" "d" f w true) = [k] ∧
    RemoveObject (c8stTwo f w k) "n" "d" k = .ok (c8stThree f w k) ∧
    (c8stThree f w k).ientries = [] ∧
    keysOf (QueryObjectsByIndex (c8stThree f w k) "n" "d" f v true) = [] ∧
    keysOf (QueryObjectsByIndex (c8stThree f w k) "n" "d" f w true) = [] :=
  ⟨c8_step1 f v k, c8_lookup1 f v k, c8_step2 f v w k, c8_lookup2v f v w k hvw,
   c8_lookup2w f w k, c8_step3 f w k, rfl, c8_lookup3 f v w k, c8_lookup3 f w w k⟩

/-- Claim C8, witness: the round-trip at the concrete field color with
values red and blue. -/
theorem c8_roundtrip_witness :
    keysOf (QueryObjectsByIndex (c8stOne "color" "red" "k1") "n" "d" "color" "red" true) = ["k1"] ∧
    keysOf (QueryObjectsByIndex (c8stTwo "color" "blue" "k1") "n" "d" "color" "red" true) = [] ∧
    keysOf (QueryObjectsByIndex (c8stTwo "color" "blue" "k1") "n" "d" "color" "blue" true) = ["k1"] ∧
    keysOf (QueryObjectsByIndex (c8stThree "color" "blue" "k1") "n" "d" "color" "blue" true) = [] :=
  ⟨(c8_index_roundtrip "color" "red" "blue" "k1" (by decide)).2.1,
   (c8_index_roundtrip "color" "red" "blue" "k1" (by decide)).2.2.2.1,
   (c8_index_roundtrip "color" "red" "blue" "k1" (by decide)).2.2.2.2.1,
   (c8_index_roundtrip "color" "red" "blue" "k1" (by decide)).2.2.2.2.2.2.2.2⟩

end Shigure
